import Mathlib

/-!
# Verification of the `isclose` approximate-equality crate

This development shallowly embeds the comparison engine of the `isclose`
crate (src/lib.rs, src/euclid.rs, src/macros.rs) and settles the spec's
claims about it.

Floating-point operands are modelled by `F`: an IEEE-style value that is
either a finite (exact) rational, positive or negative infinity, or NaN.
The arithmetic operations mirror the IEEE special-value semantics the Rust
code relies on (`f64::sub`, `f64::mul`, `f64::add`, `f64::abs`,
`f64::max` with its NaN-ignoring behaviour, and the IEEE partial order
`<=` / `==`), with finite arithmetic carried out exactly over `ℚ`
(rounding is not modelled; none of the claims proved here depend on it).
Signed zero is collapsed into the single rational `0`, which is invisible
to `abs`, `max`, `<=` and `==` as used by the code.
-/

/-- Model of an `f32`/`f64` value: a finite exact rational, an infinity,
or NaN. -/
inductive F where
  | fin : ℚ → F
  | pinf : F
  | ninf : F
  | nan : F
deriving DecidableEq, Repr

namespace F

/-- `Abs::abs` / `f64::abs`: absolute value; `|±∞| = +∞`, `|NaN| = NaN`. -/
def Fabs : F → F
  | fin q => fin |q|
  | pinf => pinf
  | ninf => pinf
  | nan => nan

/-- IEEE subtraction `self - rhs` (exact on finite operands):
`∞ - ∞` of equal signs is NaN, NaN propagates. -/
def Fsub : F → F → F
  | fin x, fin y => fin (x - y)
  | fin _, pinf => ninf
  | fin _, ninf => pinf
  | pinf, fin _ => pinf
  | ninf, fin _ => ninf
  | pinf, pinf => nan
  | pinf, ninf => pinf
  | ninf, pinf => ninf
  | ninf, ninf => nan
  | nan, _ => nan
  | _, nan => nan

/-- IEEE addition (exact on finite operands): `+∞ + -∞` is NaN,
NaN propagates. -/
def Fadd : F → F → F
  | fin x, fin y => fin (x + y)
  | fin _, pinf => pinf
  | fin _, ninf => ninf
  | pinf, fin _ => pinf
  | ninf, fin _ => ninf
  | pinf, pinf => pinf
  | pinf, ninf => nan
  | ninf, pinf => nan
  | ninf, ninf => ninf
  | nan, _ => nan
  | _, nan => nan

/-- IEEE multiplication (exact on finite operands): `0 * ±∞` is NaN,
NaN propagates. -/
def Fmul : F → F → F
  | fin x, fin y => fin (x * y)
  | fin x, pinf => if 0 < x then pinf else if x < 0 then ninf else nan
  | fin x, ninf => if 0 < x then ninf else if x < 0 then pinf else nan
  | pinf, fin y => if 0 < y then pinf else if y < 0 then ninf else nan
  | ninf, fin y => if 0 < y then ninf else if y < 0 then pinf else nan
  | pinf, pinf => pinf
  | pinf, ninf => ninf
  | ninf, pinf => ninf
  | ninf, ninf => pinf
  | nan, _ => nan
  | _, nan => nan

/-- Rust `f32::max` / `f64::max` (IEEE maxNum): the maximum of the two
numbers, ignoring NaN — if one argument is NaN the other is returned. -/
def Fmax : F → F → F
  | fin x, fin y => fin (max x y)
  | fin _, pinf => pinf
  | fin x, ninf => fin x
  | pinf, fin _ => pinf
  | ninf, fin y => fin y
  | pinf, pinf => pinf
  | pinf, ninf => pinf
  | ninf, pinf => pinf
  | ninf, ninf => ninf
  | nan, y => y
  | x, nan => x

/-- IEEE `<=`: false whenever either operand is NaN. -/
def Fle : F → F → Bool
  | fin x, fin y => decide (x ≤ y)
  | fin _, pinf => true
  | fin _, ninf => false
  | pinf, fin _ => false
  | ninf, fin _ => true
  | pinf, pinf => true
  | pinf, ninf => false
  | ninf, pinf => true
  | ninf, ninf => true
  | nan, _ => false
  | _, nan => false

/-- IEEE `==`: false whenever either operand is NaN (in particular
`NaN == NaN` is false); infinities equal only infinities of the same
sign. -/
def Fbeq : F → F → Bool
  | fin x, fin y => decide (x = y)
  | pinf, pinf => true
  | ninf, ninf => true
  | nan, _ => false
  | _, nan => false
  | _, _ => false

end F

namespace F

/-- Not-negative-and-not-NaN-unsafe classifier used by the monotonicity
lemma: holds for every value `Fabs` can produce (a nonnegative finite
rational, `+∞`, or NaN), and fails for `-∞`. -/
def NN : F → Prop
  | fin q => 0 ≤ q
  | pinf => True
  | ninf => False
  | nan => True

end F

open F

namespace F32

/-- `<f32 as IsClose>::ZERO_TOL` (src/lib.rs line 192). -/
def ZERO_TOL : F := F.fin 0

/-- `<f32 as IsClose>::ABS_TOL = 1e-6` (src/lib.rs line 193). -/
def ABS_TOL : F := F.fin (1 / 1000000)

/-- `<f32 as IsClose>::REL_TOL = 1e-6` (src/lib.rs line 194). -/
def REL_TOL : F := F.fin (1 / 1000000)

/-- `<f32 as IsClose>::is_close_tol` (src/lib.rs lines 196-200):
`let tol = Self::max(Abs::abs(self), Abs::abs(rhs)) * rel_tol + abs_tol;`
`(*self - *rhs).abs() <= tol`. -/
def is_close_tol (self rhs rel_tol abs_tol : F) : Bool :=
  let tol := Fadd (Fmul (Fmax (Fabs self) (Fabs rhs)) rel_tol) abs_tol
  Fle (Fabs (Fsub self rhs)) tol

end F32

namespace F64

/-- `<f64 as IsClose>::ZERO_TOL` (src/lib.rs line 205). -/
def ZERO_TOL : F := F.fin 0

/-- `<f64 as IsClose>::ABS_TOL = 1e-9` (src/lib.rs line 206). -/
def ABS_TOL : F := F.fin (1 / 1000000000)

/-- `<f64 as IsClose>::REL_TOL = 1e-9` (src/lib.rs line 207). -/
def REL_TOL : F := F.fin (1 / 1000000000)

/-- `<f64 as IsClose>::is_close_tol` (src/lib.rs lines 209-213):
`let tol = Self::max(Abs::abs(self), Abs::abs(rhs)) * rel_tol + abs_tol;`
`(*self - *rhs).abs() <= tol`. -/
def is_close_tol (self rhs rel_tol abs_tol : F) : Bool :=
  let tol := Fadd (Fmul (Fmax (Fabs self) (Fabs rhs)) rel_tol) abs_tol
  Fle (Fabs (Fsub self rhs)) tol

end F64

/-- The `IsClose` trait (src/lib.rs lines 129-148) for a value type `V`
compared against a right-hand side of the same type, with tolerance type
`T`: an implementation supplies the three tolerance constants and the
primitive two-tolerance comparison `is_close_tol`. -/
structure IsCloseInst (V T : Type) where
  ZERO_TOL : T
  ABS_TOL : T
  REL_TOL : T
  is_close_tol : V → V → T → T → Bool

/-- Default trait method `IsClose::is_close` (src/lib.rs lines 158-161):
`self.is_close_tol(rhs, &Self::REL_TOL, &Self::ABS_TOL)`. -/
def IsCloseInst.is_close {V T : Type} (inst : IsCloseInst V T) (self rhs : V) : Bool :=
  inst.is_close_tol self rhs inst.REL_TOL inst.ABS_TOL

/-- Default trait method `IsClose::is_close_rel_tol` (src/lib.rs lines
171-174): `self.is_close_tol(rhs, rel_tol, &Self::ZERO_TOL)`. -/
def IsCloseInst.is_close_rel_tol {V T : Type} (inst : IsCloseInst V T) (self rhs : V)
    (rel_tol : T) : Bool :=
  inst.is_close_tol self rhs rel_tol inst.ZERO_TOL

/-- Default trait method `IsClose::is_close_abs_tol` (src/lib.rs lines
184-187): `self.is_close_tol(rhs, &Self::ZERO_TOL, abs_tol)`. -/
def IsCloseInst.is_close_abs_tol {V T : Type} (inst : IsCloseInst V T) (self rhs : V)
    (abs_tol : T) : Bool :=
  inst.is_close_tol self rhs inst.ZERO_TOL abs_tol

/-- `impl IsClose for f32` (src/lib.rs lines 190-201). -/
def f32Inst : IsCloseInst F F :=
  ⟨F32.ZERO_TOL, F32.ABS_TOL, F32.REL_TOL, F32.is_close_tol⟩

/-- `impl IsClose for f64` (src/lib.rs lines 203-214). -/
def f64Inst : IsCloseInst F F :=
  ⟨F64.ZERO_TOL, F64.ABS_TOL, F64.REL_TOL, F64.is_close_tol⟩

/-- The closeness predicate exactly as the spec words it:
`tol = max(|self|, |other|) * rel_tol + abs_tol` and
`close = |self - other| <= tol`, evaluated in the operand type's own
arithmetic (here the model arithmetic on `F`). Stated separately from the
source translation so the two can be compared. -/
def spec_close (self other rel_tol abs_tol : F) : Bool :=
  Fle (Fabs (Fsub self other)) (Fadd (Fmul (Fmax (Fabs self) (Fabs other)) rel_tol) abs_tol)

/-- `impl<Typ, Tol> IsClose<Typ> for &Typ` (src/lib.rs lines 216-229): the
left operand is held by shared reference; `is_close_tol` dereferences and
delegates, and the three constants are re-exported unchanged. In the
shallow embedding a reference to a value is the value itself, so the impl
is a map on instances. -/
def implRefLhs {V T : Type} (inst : IsCloseInst V T) : IsCloseInst V T :=
  ⟨inst.ZERO_TOL, inst.ABS_TOL, inst.REL_TOL,
    fun self rhs rel_tol abs_tol => inst.is_close_tol self rhs rel_tol abs_tol⟩

/-- `impl<Typ, Tol> IsClose<Typ> for &mut Typ` (src/lib.rs lines 231-244). -/
def implMutLhs {V T : Type} (inst : IsCloseInst V T) : IsCloseInst V T :=
  ⟨inst.ZERO_TOL, inst.ABS_TOL, inst.REL_TOL,
    fun self rhs rel_tol abs_tol => inst.is_close_tol self rhs rel_tol abs_tol⟩

/-- `impl<Typ, Tol> IsClose<&Typ> for Typ` (src/lib.rs lines 246-259). -/
def implRefRhs {V T : Type} (inst : IsCloseInst V T) : IsCloseInst V T :=
  ⟨inst.ZERO_TOL, inst.ABS_TOL, inst.REL_TOL,
    fun self rhs rel_tol abs_tol => inst.is_close_tol self rhs rel_tol abs_tol⟩

/-- `impl<Typ, Tol> IsClose<&mut Typ> for Typ` (src/lib.rs lines 261-274). -/
def implMutRhs {V T : Type} (inst : IsCloseInst V T) : IsCloseInst V T :=
  ⟨inst.ZERO_TOL, inst.ABS_TOL, inst.REL_TOL,
    fun self rhs rel_tol abs_tol => inst.is_close_tol self rhs rel_tol abs_tol⟩

/-- `impl<Typ, Tol> IsClose for &Typ` (reference vs reference,
src/lib.rs lines 276-289). -/
def implRefRef {V T : Type} (inst : IsCloseInst V T) : IsCloseInst V T :=
  ⟨inst.ZERO_TOL, inst.ABS_TOL, inst.REL_TOL,
    fun self rhs rel_tol abs_tol => inst.is_close_tol self rhs rel_tol abs_tol⟩

/-- `impl<Typ, Tol> IsClose<&Typ> for &mut Typ` (src/lib.rs lines 291-304). -/
def implMutRefRef {V T : Type} (inst : IsCloseInst V T) : IsCloseInst V T :=
  ⟨inst.ZERO_TOL, inst.ABS_TOL, inst.REL_TOL,
    fun self rhs rel_tol abs_tol => inst.is_close_tol self rhs rel_tol abs_tol⟩

/-- `impl<Typ, Tol> IsClose<&mut Typ> for &Typ` (src/lib.rs lines 306-319). -/
def implRefMutRef {V T : Type} (inst : IsCloseInst V T) : IsCloseInst V T :=
  ⟨inst.ZERO_TOL, inst.ABS_TOL, inst.REL_TOL,
    fun self rhs rel_tol abs_tol => inst.is_close_tol self rhs rel_tol abs_tol⟩

/-- `impl<Typ, Tol> IsClose for &mut Typ` (mutable reference vs mutable
reference, src/lib.rs lines 321-334). -/
def implMutMut {V T : Type} (inst : IsCloseInst V T) : IsCloseInst V T :=
  ⟨inst.ZERO_TOL, inst.ABS_TOL, inst.REL_TOL,
    fun self rhs rel_tol abs_tol => inst.is_close_tol self rhs rel_tol abs_tol⟩

/-- `euclid::Point2D<T, U>`: a 2D point with `x` and `y` coordinates (the
unit parameter `U` is phantom and omitted). -/
structure Point2D (α : Type) where
  x : α
  y : α
deriving DecidableEq

/-- `euclid::Box2D<T, U>`: a 2D box given by its `min` and `max` corner
points. -/
structure Box2D (α : Type) where
  min : Point2D α
  max : Point2D α
deriving DecidableEq

/-- `euclid::Rotation3D<T, U1, U2>`: a quaternion with components `i`,
`j`, `k`, `r`. -/
structure Rotation3D (α : Type) where
  i : α
  j : α
  k : α
  r : α
deriving DecidableEq

/-- `impl<T, U> IsClose for Point2D<T, U>` (src/euclid.rs lines 89-103):
compares `x` and `y` with the same tolerance pair, combined with `&&`;
constants inherited from the scalar instance. -/
def point2DInst {α T : Type} (inst : IsCloseInst α T) : IsCloseInst (Point2D α) T :=
  ⟨inst.ZERO_TOL, inst.ABS_TOL, inst.REL_TOL,
    fun self rhs rel_tol abs_tol =>
      inst.is_close_tol self.x rhs.x rel_tol abs_tol &&
        inst.is_close_tol self.y rhs.y rel_tol abs_tol⟩

/-- `impl<T, U> IsClose for Box2D<T, U>` (src/euclid.rs lines 24-38):
compares the `min` corners and the `max` corners with the same tolerance
pair, combined with `&&`; constants inherited from the scalar instance. -/
def box2DInst {α T : Type} (inst : IsCloseInst α T) : IsCloseInst (Box2D α) T :=
  ⟨inst.ZERO_TOL, inst.ABS_TOL, inst.REL_TOL,
    fun self rhs rel_tol abs_tol =>
      (point2DInst inst).is_close_tol self.min rhs.min rel_tol abs_tol &&
        (point2DInst inst).is_close_tol self.max rhs.max rel_tol abs_tol⟩

/-- Modelled from the spec: the zero-tolerance constant. `src/macros.rs`
line 1 imports `crate::Zero` and line 18 reads `Tolerance::ZERO`, but the
declaration of the `Zero` trait itself is not among the source files. The
spec says a "zero tolerance" value must exist for every tolerance type
and is used as the implicit default when one of the two tolerance kinds
is omitted. -/
structure ZeroInst (T : Type) where
  ZERO : T

/-- `assert_failed` (src/macros.rs lines 7-46): resolves the optional
tolerance pair (explicit values kept, a missing one replaced by
`Tolerance::ZERO`, both missing replaced by the type's `REL_TOL` /
`ABS_TOL` defaults) and builds the panic message. The Rust `{:?}` Debug
renderings of operands and tolerances are library behaviour outside this
crate, so they are abstracted as the formatter parameters `fmtV` and
`fmtT`; the literal layout (labels, indentation, line and field order) is
taken verbatim from the source. The function diverges in Rust (`-> !`);
here it returns the message it panics with. -/
def assert_failed_msg {V T : Type} (inst : IsCloseInst V T) (zero : ZeroInst T)
    (fmtV : V → String) (fmtT : T → String) (lhs rhs : V)
    (rel_tol abs_tol : Option T) (args : Option String) : String :=
  let resolved : T × T :=
    match rel_tol, abs_tol with
    | some r, some a => (r, a)
    | some r, none => (r, zero.ZERO)
    | none, some a => (zero.ZERO, a)
    | none, none => (inst.REL_TOL, inst.ABS_TOL)
  let tail : String :=
    "\n    left: " ++ fmtV lhs ++ "\n   right: " ++ fmtV rhs ++
      "\n rel tol: " ++ fmtT resolved.1 ++ "\n abs tol: " ++ fmtT resolved.2
  match args with
  | some a => "assertion `left ~= right` failed: " ++ a ++ tail
  | none => "assertion `left ~= right` failed" ++ tail

/-- The `assert_is_close!` macro (src/macros.rs lines 48-77): checks
`IsClose::is_close` and on failure calls `assert_failed` with no explicit
tolerances; the optional trailing format arguments are modelled by
`args`. The result is `none` on pass and `some message` on failure. -/
def assert_is_close {V T : Type} (inst : IsCloseInst V T) (zero : ZeroInst T)
    (fmtV : V → String) (fmtT : T → String) (lhs rhs : V) (args : Option String) :
    Option String :=
  if inst.is_close lhs rhs then none
  else some (assert_failed_msg inst zero fmtV fmtT lhs rhs none none args)

/-- The `assert_is_close_rel_tol!` macro (src/macros.rs lines 79-108):
checks `IsClose::is_close_rel_tol` and on failure calls `assert_failed`
with `Some(rel_tol)` and no absolute tolerance. -/
def assert_is_close_rel_tol {V T : Type} (inst : IsCloseInst V T) (zero : ZeroInst T)
    (fmtV : V → String) (fmtT : T → String) (lhs rhs : V) (rel_tol : T)
    (args : Option String) : Option String :=
  if inst.is_close_rel_tol lhs rhs rel_tol then none
  else some (assert_failed_msg inst zero fmtV fmtT lhs rhs (some rel_tol) none args)

/-- The `assert_is_close_abs_tol!` macro (src/macros.rs lines 110-139):
checks `IsClose::is_close_abs_tol` and on failure calls `assert_failed`
with no relative tolerance and `Some(abs_tol)`. -/
def assert_is_close_abs_tol {V T : Type} (inst : IsCloseInst V T) (zero : ZeroInst T)
    (fmtV : V → String) (fmtT : T → String) (lhs rhs : V) (abs_tol : T)
    (args : Option String) : Option String :=
  if inst.is_close_abs_tol lhs rhs abs_tol then none
  else some (assert_failed_msg inst zero fmtV fmtT lhs rhs none (some abs_tol) args)

/-- The `assert_is_close_tol!` macro (src/macros.rs lines 141-172):
checks `IsClose::is_close_tol` and on failure calls `assert_failed` with
both tolerances explicit. -/
def assert_is_close_tol {V T : Type} (inst : IsCloseInst V T) (zero : ZeroInst T)
    (fmtV : V → String) (fmtT : T → String) (lhs rhs : V) (rel_tol abs_tol : T)
    (args : Option String) : Option String :=
  if inst.is_close_tol lhs rhs rel_tol abs_tol then none
  else some (assert_failed_msg inst zero fmtV fmtT lhs rhs (some rel_tol) (some abs_tol) args)

/-- `impl<T, U1, U2> IsClose for Rotation3D<T, U1, U2>` (src/euclid.rs
lines 171-187): compares the four quaternion components `i`, `j`, `k`,
`r` independently with the same tolerance pair, combined with `&&`. -/
def rotation3DInst {α T : Type} (inst : IsCloseInst α T) : IsCloseInst (Rotation3D α) T :=
  ⟨inst.ZERO_TOL, inst.ABS_TOL, inst.REL_TOL,
    fun self rhs rel_tol abs_tol =>
      inst.is_close_tol self.i rhs.i rel_tol abs_tol &&
        inst.is_close_tol self.j rhs.j rel_tol abs_tol &&
          inst.is_close_tol self.k rhs.k rel_tol abs_tol &&
            inst.is_close_tol self.r rhs.r rel_tol abs_tol⟩

/-- The failure report exactly as the spec lays it out: primary failure
line (with a ": message" suffix exactly when a message is present),
then, each on its own line and in this order, the formatted left
operand, right operand, relative tolerance and absolute tolerance.
Stated separately from the source translation (`assert_failed_msg`) so
the two can be compared. -/
def spec_report {V T : Type} (fmtV : V → String) (fmtT : T → String)
    (lhs rhs : V) (rel_tol abs_tol : T) (args : Option String) : String :=
  (match args with
    | some a => "assertion `left ~= right` failed: " ++ a
    | none => "assertion `left ~= right` failed") ++
    "\n    left: " ++ fmtV lhs ++ "\n   right: " ++ fmtV rhs ++
      "\n rel tol: " ++ fmtT rel_tol ++ "\n abs tol: " ++ fmtT abs_tol

/-- An instance behaves identically to another and re-exports the same
three tolerance constants (used to state reference transparency). -/
def EquivInst {V T : Type} (j inst : IsCloseInst V T) : Prop :=
  (∀ a b rel_tol abs_tol, j.is_close_tol a b rel_tol abs_tol =
    inst.is_close_tol a b rel_tol abs_tol) ∧
    j.ZERO_TOL = inst.ZERO_TOL ∧ j.ABS_TOL = inst.ABS_TOL ∧ j.REL_TOL = inst.REL_TOL

namespace F

lemma NN_Fabs (a : F) : NN (Fabs a) := by
  cases a <;> simp [NN, Fabs, abs_nonneg]

lemma NN_Fmax (a b : F) (ha : NN a) (hb : NN b) : NN (Fmax a b) := by
  cases a <;> cases b <;> simp_all [NN, Fmax, le_max_iff]

lemma Fabs_Fsub_comm (a b : F) : Fabs (Fsub a b) = Fabs (Fsub b a) := by
  cases a <;> cases b <;> simp [Fsub, Fabs, abs_sub_comm]

lemma Fmax_comm (a b : F) : Fmax a b = Fmax b a := by
  cases a <;> cases b <;> simp [Fmax, max_comm]

set_option maxHeartbeats 1000000 in
set_option linter.unnecessarySeqFocus false in
lemma Fle_mono_tol (m d rel ab ab' : F) (r' : ℚ)
    (hm : NN m) (hd : NN d)
    (h : Fle d (Fadd (Fmul m rel) ab) = true)
    (hr : Fle rel (F.fin r') = true)
    (ha : Fle ab ab' = true) :
    Fle d (Fadd (Fmul m (F.fin r')) ab') = true := by
  cases d with
  | ninf => exact hd.elim
  | nan => cases m <;> cases rel <;> cases ab <;> simp [Fmul, Fadd, Fle] at h
  | pinf =>
    cases m with
    | ninf => exact hm.elim
    | nan => cases rel <;> cases ab <;> simp [Fmul, Fadd, Fle] at h
    | fin qm =>
      have hqm : 0 ≤ qm := hm
      cases rel with
      | pinf => simp [Fle] at hr
      | nan => simp [Fle] at hr
      | ninf =>
        cases ab <;> cases ab' <;>
          simp_all [Fmul, Fadd, Fle] <;> split_ifs at h <;> simp_all <;> linarith
      | fin r =>
        have hrr : r ≤ r' := by simpa [Fle] using hr
        cases ab <;> cases ab' <;> simp_all [Fmul, Fadd, Fle]
    | pinf =>
      cases rel with
      | pinf => simp [Fle] at hr
      | nan => simp [Fle] at hr
      | ninf =>
        cases ab <;> cases ab' <;> simp_all [Fmul, Fadd, Fle]
      | fin r =>
        have hrr : r ≤ r' := by simpa [Fle] using hr
        cases ab <;> cases ab' <;>
          simp_all [Fmul, Fadd, Fle] <;> split_ifs at h ⊢ <;> simp_all <;> linarith
  | fin qd =>
    cases m with
    | ninf => exact hm.elim
    | nan => cases rel <;> cases ab <;> simp [Fmul, Fadd, Fle] at h
    | fin qm =>
      have hqm : 0 ≤ qm := hm
      cases rel with
      | pinf => simp [Fle] at hr
      | nan => simp [Fle] at hr
      | ninf =>
        cases ab <;> cases ab' <;>
          simp_all [Fmul, Fadd, Fle] <;> split_ifs at h <;> simp_all <;> linarith
      | fin r =>
        have hrr : r ≤ r' := by simpa [Fle] using hr
        cases ab with
        | nan => cases ab' <;> simp_all [Fmul, Fadd, Fle]
        | ninf => cases ab' <;> simp_all [Fmul, Fadd, Fle]
        | pinf => cases ab' <;> simp_all [Fmul, Fadd, Fle]
        | fin s =>
          cases ab' with
          | nan => simp_all [Fle]
          | ninf => simp_all [Fle]
          | pinf => simp_all [Fmul, Fadd, Fle]
          | fin s' =>
            simp_all [Fmul, Fadd, Fle]
            nlinarith [mul_le_mul_of_nonneg_left hrr hqm]
    | pinf =>
      cases rel with
      | pinf => simp [Fle] at hr
      | nan => simp [Fle] at hr
      | ninf =>
        cases ab <;> cases ab' <;> simp_all [Fmul, Fadd, Fle]
      | fin r =>
        have hrr : r ≤ r' := by simpa [Fle] using hr
        cases ab <;> cases ab' <;>
          simp_all [Fmul, Fadd, Fle] <;> split_ifs at h ⊢ <;> simp_all <;> linarith

end F

-- Sanity checks mirroring the crate's own unit tests (src/lib.rs tests).
example : F64.is_close_tol (F.fin 1) (F.fin (1 + 1/100)) (F.fin (1/10)) (F.fin 0) = true := by
  norm_num [F64.is_close_tol, Fabs, Fsub, Fadd, Fmul, Fmax, Fle, abs_of_nonneg, abs_of_nonpos]

example : F64.is_close_tol (F.fin (1/100)) (F.fin (2/100)) (F.fin (1/10)) (F.fin 0) = false := by
  norm_num [F64.is_close_tol, Fabs, Fsub, Fadd, Fmul, Fmax, Fle, abs_of_nonneg, abs_of_nonpos]

example : F64.is_close_tol (F.fin (1/100)) (F.fin (2/100)) (F.fin 0) (F.fin (1/10)) = true := by
  norm_num [F64.is_close_tol, Fabs, Fsub, Fadd, Fmul, Fmax, Fle, abs_of_nonneg, abs_of_nonpos]

example : F64.is_close_tol (F.fin 1) (F.fin 2) (F.fin 0) (F.fin (1/10)) = false := by
  norm_num [F64.is_close_tol, Fabs, Fsub, Fadd, Fmul, Fmax, Fle, abs_of_nonneg, abs_of_nonpos]

/-- C1: for f32 and f64, `is_close_tol(self, rhs, rel_tol, abs_tol)`
returns true exactly when `|self - rhs| <= max(|self|, |rhs|) * rel_tol +
abs_tol`, evaluated in the operand type's own arithmetic (the model
arithmetic on `F`); the operation is a total function into `Bool` — it
always returns a boolean and never errors — and it only reads its
operands (it is a pure function of them). -/
theorem C1_scalar_formula :
    ∀ self rhs rel_tol abs_tol : F,
      F32.is_close_tol self rhs rel_tol abs_tol = spec_close self rhs rel_tol abs_tol ∧
      F64.is_close_tol self rhs rel_tol abs_tol = spec_close self rhs rel_tol abs_tol :=
  fun _ _ _ _ => ⟨rfl, rfl⟩

/-- C2: for every Comparable type and every pair of operands, the three
derived entry points are pure delegations to the two-tolerance primitive:
`is_close(a, b)` is `is_close_tol(a, b, REL_TOL, ABS_TOL)`,
`is_close_rel_tol(a, b, r)` is `is_close_tol(a, b, r, ZERO_TOL)`, and
`is_close_abs_tol(a, b, t)` is `is_close_tol(a, b, ZERO_TOL, t)`. -/
theorem C2_policy_resolver_delegates :
    ∀ (V T : Type) (inst : IsCloseInst V T) (a b : V) (r t : T),
      inst.is_close a b = inst.is_close_tol a b inst.REL_TOL inst.ABS_TOL ∧
      inst.is_close_rel_tol a b r = inst.is_close_tol a b r inst.ZERO_TOL ∧
      inst.is_close_abs_tol a b t = inst.is_close_tol a b inst.ZERO_TOL t :=
  fun _ _ _ _ _ _ _ => ⟨rfl, rfl, rfl⟩

/-- C7: each of the eight reference implementations (shared reference,
mutable reference and their left/right combinations) produces, on all
operands and tolerances, the identical boolean outcome as the underlying
value implementation, and re-exports the same `ZERO_TOL`, `ABS_TOL` and
`REL_TOL` constants. -/
theorem C7_reference_transparency :
    ∀ (V T : Type) (inst : IsCloseInst V T),
      EquivInst (implRefLhs inst) inst ∧ EquivInst (implMutLhs inst) inst ∧
      EquivInst (implRefRhs inst) inst ∧ EquivInst (implMutRhs inst) inst ∧
      EquivInst (implRefRef inst) inst ∧ EquivInst (implMutRefRef inst) inst ∧
      EquivInst (implRefMutRef inst) inst ∧ EquivInst (implMutMut inst) inst :=
  fun _ _ _ =>
    ⟨⟨fun _ _ _ _ => rfl, rfl, rfl, rfl⟩, ⟨fun _ _ _ _ => rfl, rfl, rfl, rfl⟩,
      ⟨fun _ _ _ _ => rfl, rfl, rfl, rfl⟩, ⟨fun _ _ _ _ => rfl, rfl, rfl, rfl⟩,
      ⟨fun _ _ _ _ => rfl, rfl, rfl, rfl⟩, ⟨fun _ _ _ _ => rfl, rfl, rfl, rfl⟩,
      ⟨fun _ _ _ _ => rfl, rfl, rfl, rfl⟩, ⟨fun _ _ _ _ => rfl, rfl, rfl, rfl⟩⟩

/-- C10: for f64 and f32, a NaN operand is never close to anything —
whichever side NaN appears on and whatever the tolerances, `is_close_tol`
returns false (in particular NaN is not close to itself). -/
theorem C10_nan_never_close :
    ∀ (x rel_tol abs_tol : F),
      F64.is_close_tol F.nan x rel_tol abs_tol = false ∧
      F64.is_close_tol x F.nan rel_tol abs_tol = false ∧
      F32.is_close_tol F.nan x rel_tol abs_tol = false ∧
      F32.is_close_tol x F.nan rel_tol abs_tol = false := by
  intro x rel_tol abs_tol
  refine ⟨?_, ?_, ?_, ?_⟩ <;>
    cases x <;> simp [F64.is_close_tol, F32.is_close_tol, Fsub, Fabs, Fle]

/-- C5 counterexample: the claim quantifies over all values, but at
`a = b = +∞` with both tolerances zero, `is_close_tol` returns false
(`|∞ - ∞|` is NaN, and NaN compares below nothing) while IEEE equality
`+∞ == +∞` is true, so the stated equivalence fails. -/
theorem C5_zero_tolerance_counterexample :
    F64.is_close_tol F.pinf F.pinf (F.fin 0) (F.fin 0) = false ∧
    F32.is_close_tol F.pinf F.pinf (F.fin 0) (F.fin 0) = false ∧
    Fbeq F.pinf F.pinf = true := by
  refine ⟨?_, ?_, rfl⟩ <;> simp [F64.is_close_tol, F32.is_close_tol, Fsub, Fabs, Fle]

/-- C5 amended: for all finite f64 (and f32) values `a` and `b`,
`is_close_tol(a, b, 0, 0)` returns true if and only if `a == b` under
IEEE equality. -/
theorem C5_zero_tolerance_degeneration_finite :
    ∀ qa qb : ℚ,
      F64.is_close_tol (F.fin qa) (F.fin qb) (F.fin 0) (F.fin 0) =
        Fbeq (F.fin qa) (F.fin qb) ∧
      F32.is_close_tol (F.fin qa) (F.fin qb) (F.fin 0) (F.fin 0) =
        Fbeq (F.fin qa) (F.fin qb) := by
  intro qa qb
  constructor <;>
    simp [F64.is_close_tol, F32.is_close_tol, Fsub, Fabs, Fadd, Fmul, Fmax, Fle, Fbeq,
      abs_nonpos_iff, sub_eq_zero]

/-- C9: the tolerances printed in a failure report are determined by the
assertion entry point used — the default entry point shows the type's
`REL_TOL`/`ABS_TOL` constants, the relative-only entry point shows the
explicit relative tolerance and the zero tolerance, the absolute-only
entry point shows the zero tolerance and the explicit absolute tolerance,
and the dual-tolerance entry point shows exactly the two explicit values;
a caller-supplied message is appended after ": " on the primary failure
line and an absent message leaves the primary line without a trailing
message (both captured by `spec_report`). -/
theorem C9_report_tolerances_by_entry_point :
    ∀ (V T : Type) (inst : IsCloseInst V T) (zero : ZeroInst T)
      (fmtV : V → String) (fmtT : T → String) (lhs rhs : V) (r t : T)
      (msg : Option String),
      assert_is_close inst zero fmtV fmtT lhs rhs msg =
        (if inst.is_close lhs rhs then none
          else some (spec_report fmtV fmtT lhs rhs inst.REL_TOL inst.ABS_TOL msg)) ∧
      assert_is_close_rel_tol inst zero fmtV fmtT lhs rhs r msg =
        (if inst.is_close_rel_tol lhs rhs r then none
          else some (spec_report fmtV fmtT lhs rhs r zero.ZERO msg)) ∧
      assert_is_close_abs_tol inst zero fmtV fmtT lhs rhs t msg =
        (if inst.is_close_abs_tol lhs rhs t then none
          else some (spec_report fmtV fmtT lhs rhs zero.ZERO t msg)) ∧
      assert_is_close_tol inst zero fmtV fmtT lhs rhs r t msg =
        (if inst.is_close_tol lhs rhs r t then none
          else some (spec_report fmtV fmtT lhs rhs r t msg)) := by
  intro V T inst zero fmtV fmtT lhs rhs r t msg
  refine ⟨?_, ?_, ?_, ?_⟩ <;>
    cases msg <;>
      simp [assert_is_close, assert_is_close_rel_tol, assert_is_close_abs_tol,
        assert_is_close_tol, assert_failed_msg, spec_report, ← String.append_assoc]

/-- C4: symmetry of the scalar comparator — for all finite f64 (and f32)
values `a` and `b` and all non-negative tolerances,
`is_close_tol(a, b, rel, abs)` equals `is_close_tol(b, a, rel, abs)`. -/
theorem C4_scalar_symmetry :
    ∀ (qa qb : ℚ) (rel_tol abs_tol : F),
      Fle (F.fin 0) rel_tol = true → Fle (F.fin 0) abs_tol = true →
      F64.is_close_tol (F.fin qa) (F.fin qb) rel_tol abs_tol =
        F64.is_close_tol (F.fin qb) (F.fin qa) rel_tol abs_tol ∧
      F32.is_close_tol (F.fin qa) (F.fin qb) rel_tol abs_tol =
        F32.is_close_tol (F.fin qb) (F.fin qa) rel_tol abs_tol := by
  intro qa qb rel_tol abs_tol _ _
  constructor
  · simp only [F64.is_close_tol]
    rw [Fabs_Fsub_comm, Fmax_comm]
  · simp only [F32.is_close_tol]
    rw [Fabs_Fsub_comm, Fmax_comm]

/-- Witness for C4 at `a = 0`, `b = 1`, zero tolerances. -/
theorem C4_scalar_symmetry_witness :
    Fle (F.fin 0) (F.fin 0) = true ∧
    F64.is_close_tol (F.fin 0) (F.fin 1) (F.fin 0) (F.fin 0) =
      F64.is_close_tol (F.fin 1) (F.fin 0) (F.fin 0) (F.fin 0) :=
  ⟨by simp [Fle],
    (C4_scalar_symmetry 0 1 (F.fin 0) (F.fin 0) (by simp [Fle]) (by simp [Fle])).1⟩

/-- C3: composite AND law — a composite comparison is true iff every
corresponding field pair is close under the same tolerances (shown for
the 2D box over its two corner points and the quaternion rotation over
its four components); in particular, if two boxes agree on the `min`
corners but the `max` corners are not close, the composite comparison
returns false. -/
theorem C3_composite_and_law :
    ∀ (α T : Type) (inst : IsCloseInst α T) (s o : Box2D α) (q p : Rotation3D α)
      (rel_tol abs_tol : T),
      ((box2DInst inst).is_close_tol s o rel_tol abs_tol = true ↔
        ((point2DInst inst).is_close_tol s.min o.min rel_tol abs_tol = true ∧
          (point2DInst inst).is_close_tol s.max o.max rel_tol abs_tol = true)) ∧
      ((rotation3DInst inst).is_close_tol q p rel_tol abs_tol = true ↔
        (inst.is_close_tol q.i p.i rel_tol abs_tol = true ∧
          inst.is_close_tol q.j p.j rel_tol abs_tol = true ∧
          inst.is_close_tol q.k p.k rel_tol abs_tol = true ∧
          inst.is_close_tol q.r p.r rel_tol abs_tol = true)) ∧
      (s.min = o.min →
        (point2DInst inst).is_close_tol s.max o.max rel_tol abs_tol = false →
        (box2DInst inst).is_close_tol s o rel_tol abs_tol = false) := by
  intro α T inst s o q p rel_tol abs_tol
  refine ⟨?_, ?_, ?_⟩
  · simp [box2DInst, Bool.and_eq_true]
  · simp [rotation3DInst, Bool.and_eq_true, and_assoc]
  · intro _ hmax
    simp [box2DInst, hmax]

/-- Witness for C3: two f64 boxes agreeing on `min` with non-close `max`
corners compare as not close. -/
theorem C3_composite_and_law_witness :
    (Box2D.mk (Point2D.mk (F.fin 0) (F.fin 0)) (Point2D.mk (F.fin 0) (F.fin 0))).min =
      (Box2D.mk (Point2D.mk (F.fin 0) (F.fin 0)) (Point2D.mk (F.fin 1) (F.fin 1))).min ∧
    (point2DInst f64Inst).is_close_tol (Point2D.mk (F.fin 0) (F.fin 0))
      (Point2D.mk (F.fin 1) (F.fin 1)) (F.fin 0) (F.fin 0) = false ∧
    (box2DInst f64Inst).is_close_tol
      (Box2D.mk (Point2D.mk (F.fin 0) (F.fin 0)) (Point2D.mk (F.fin 0) (F.fin 0)))
      (Box2D.mk (Point2D.mk (F.fin 0) (F.fin 0)) (Point2D.mk (F.fin 1) (F.fin 1)))
      (F.fin 0) (F.fin 0) = false :=
  ⟨rfl,
    by simp [point2DInst, f64Inst, F64.is_close_tol, Fabs, Fsub, Fadd, Fmul, Fmax, Fle],
    (C3_composite_and_law F F f64Inst
      (Box2D.mk (Point2D.mk (F.fin 0) (F.fin 0)) (Point2D.mk (F.fin 0) (F.fin 0)))
      (Box2D.mk (Point2D.mk (F.fin 0) (F.fin 0)) (Point2D.mk (F.fin 1) (F.fin 1)))
      (Rotation3D.mk (F.fin 0) (F.fin 0) (F.fin 0) (F.fin 0))
      (Rotation3D.mk (F.fin 0) (F.fin 0) (F.fin 0) (F.fin 0))
      (F.fin 0) (F.fin 0)).2.2 rfl
      (by simp [point2DInst, f64Inst, F64.is_close_tol, Fabs, Fsub, Fadd, Fmul, Fmax, Fle])⟩

/-- C6 counterexample: the claim quantifies over all values and tolerance
pairs, but at `a = b = 0` the comparison is true with zero tolerances,
and raising the relative tolerance to `+∞` (which satisfies `+∞ >= 0`
under IEEE `<=`) makes the computed tolerance `max(0,0) * ∞ + 0 = NaN`,
so the comparison turns false: monotonicity fails as stated. -/
theorem C6_monotonicity_counterexample :
    F64.is_close_tol (F.fin 0) (F.fin 0) (F.fin 0) (F.fin 0) = true ∧
    Fle (F.fin 0) F.pinf = true ∧
    Fle (F.fin 0) (F.fin 0) = true ∧
    F64.is_close_tol (F.fin 0) (F.fin 0) F.pinf (F.fin 0) = false := by
  refine ⟨?_, rfl, ?_, ?_⟩ <;>
    simp [F64.is_close_tol, Fsub, Fabs, Fadd, Fmul, Fmax, Fle]

/-- C6 amended: tolerance monotonicity restricted to a finite raised
relative tolerance — for all f64 (and f32) values `a` and `b`, if
`is_close_tol(a, b, rel, abs)` is true then `is_close_tol(a, b, rel',
abs')` is true for every finite `rel' >= rel` and every `abs' >= abs`.
(The finiteness restriction on `rel'` is forced by the counterexample;
`abs'` needs none.) -/
theorem C6_monotonicity_finite_rel :
    ∀ (a b rel_tol abs_tol abs_tol' : F) (r' : ℚ),
      Fle rel_tol (F.fin r') = true → Fle abs_tol abs_tol' = true →
      (F64.is_close_tol a b rel_tol abs_tol = true →
        F64.is_close_tol a b (F.fin r') abs_tol' = true) ∧
      (F32.is_close_tol a b rel_tol abs_tol = true →
        F32.is_close_tol a b (F.fin r') abs_tol' = true) := by
  intro a b rel_tol abs_tol abs_tol' r' hr ha
  constructor <;> intro h <;>
    exact Fle_mono_tol _ _ _ _ _ _ (NN_Fmax _ _ (NN_Fabs a) (NN_Fabs b)) (NN_Fabs _) h hr ha

/-- Witness for C6 at `a = b = 1`, tolerances raised from `(0, 0)` to
`(1, 0)`. -/
theorem C6_monotonicity_finite_rel_witness :
    Fle (F.fin 0) (F.fin 1) = true ∧
    Fle (F.fin 0) (F.fin 0) = true ∧
    F64.is_close_tol (F.fin 1) (F.fin 1) (F.fin 0) (F.fin 0) = true ∧
    F64.is_close_tol (F.fin 1) (F.fin 1) (F.fin 1) (F.fin 0) = true :=
  ⟨by simp [Fle], by simp [Fle],
    by simp [F64.is_close_tol, Fsub, Fabs, Fadd, Fmul, Fmax, Fle],
    (C6_monotonicity_finite_rel (F.fin 1) (F.fin 1) (F.fin 0) (F.fin 0) (F.fin 0) 1
      (by simp [Fle]) (by simp [Fle])).1
      (by simp [F64.is_close_tol, Fsub, Fabs, Fadd, Fmul, Fmax, Fle])⟩
